import Mathlib

/-!
Shallow embedding of the focus-containment and modal-lifecycle core of the
color-ui component library, together with proofs of the specified properties.

Sources embedded:
  - src/packages/react/src/utils/FocusLock.tsx (focus trapping)
  - src/packages/react/src/components/Modal/Modal.tsx (modal orchestration)

DOM values are modelled by element identities (`Nat` ids) together with the
JavaScript distinction between `null` and `undefined`, which matters for the
strict-equality checks (`===`) performed by the source.
-/

/-- A JavaScript value standing for a DOM element reference: either an element
(identified by a numeric id standing for object identity), `null`, or
`undefined`.  Strict equality `===` on these values is Lean equality:
`null === undefined` is false in JavaScript, and two element references are
strictly equal exactly when they are the same object. -/
inductive DomRef where
  | elem : Nat → DomRef
  | null : DomRef
  | undefined : DomRef
deriving DecidableEq, Repr

/-- JavaScript nullish test: true exactly on `null` and `undefined`. -/
def DomRef.nullish : DomRef → Bool
  | .null => true
  | .undefined => true
  | .elem _ => false

/-- The JavaScript `??` operator on DOM references. -/
def nullishCoalesce (a b : DomRef) : DomRef :=
  if a.nullish then b else a

/-- Indexed access `list[i]` on a NodeList, JavaScript style: an element for an
in-range index, `undefined` otherwise (including negative indices such as
`items[length - 1]` when the list is empty). -/
def getItem (items : List Nat) (i : Int) : DomRef :=
  if 0 ≤ i then
    match items.get? i.toNat with
    | some x => DomRef.elem x
    | none => DomRef.undefined
  else DomRef.undefined

/-- A keyboard event as read by the handler: `event.key` and `event.shiftKey`. -/
structure KeyEvent where
  key : String
  shiftKey : Bool
deriving DecidableEq, Repr

/-- Observable outcome of one run of the keydown handler: whether
`event.preventDefault()` was called, which element (if any) received a
`.focus()` call, and whether the handler threw (calling `.focus()` on a
non-element would throw a TypeError). -/
structure TabResult where
  preventDefault : Bool
  focused : Option Nat
  threw : Bool
deriving DecidableEq, Repr

/-- Embedding of `handleKeyPress` from FocusLock.tsx lines 70-100.

`focusableItems` is the `focusableItems.current` ref: `none` models the
`undefined` value it holds before the first effect run (the handler then
returns at the `if (!focusableItems.current) return;` guard — a NodeList
object is truthy even when empty, so an empty list does NOT short-circuit);
`activeElement` is `document.activeElement` (an element or `null`, never
`undefined`). -/
def handleKeyPress (isLocked : Bool) (focusableItems : Option (List Nat))
    (activeElement : DomRef) (event : KeyEvent) : TabResult :=
  match focusableItems with
  | none => { preventDefault := false, focused := none, threw := false }
  | some items =>
    let len := items.length
    let firstItem := getItem items 0
    let lastItem := getItem items ((len : Int) - 1)
    if isLocked && (event.key == "Tab") then
      if len == 1 then
        { preventDefault := true, focused := none, threw := false }
      else if !event.shiftKey && (activeElement == lastItem) then
        match firstItem with
        | .elem id => { preventDefault := true, focused := some id, threw := false }
        | _ => { preventDefault := true, focused := none, threw := true }
      else if event.shiftKey && (activeElement == firstItem) then
        match lastItem with
        | .elem id => { preventDefault := true, focused := some id, threw := false }
        | _ => { preventDefault := true, focused := none, threw := true }
      else { preventDefault := false, focused := none, threw := false }
    else { preventDefault := false, focused := none, threw := false }

theorem getItem_zero (items : List Nat) (x : Nat) (h : items.head? = some x) :
    getItem items 0 = DomRef.elem x := by
  cases items with
  | nil => simp at h
  | cons a t =>
    simp only [List.head?] at h
    cases h
    rfl

theorem getItem_last (items : List Nat) (x : Nat) (h1 : 1 ≤ items.length)
    (h : items.getLast? = some x) :
    getItem items ((items.length : Int) - 1) = DomRef.elem x := by
  have hlen : (0 : Int) ≤ (items.length : Int) - 1 := by
    omega
  have htn : ((items.length : Int) - 1).toNat = items.length - 1 := by
    omega
  rw [List.getLast?_eq_getElem?] at h
  simp only [getItem, if_pos hlen, htn, List.get?_eq_getElem?, h]

/-- C3: for a locked FocusLock whose focusable set has at least two members,
forward Tab (shift not held) on the last element suppresses the default action
and focuses the first element; backward Tab (shift held) on the first element
suppresses the default action and focuses the last element; every other Tab
case is a no-op letting default tabbing proceed. -/
theorem C3_tab_cycling (items : List Nat) (first last : Nat) (active : DomRef)
    (sh : Bool) (h2 : 2 ≤ items.length) (hf : items.head? = some first)
    (hl : items.getLast? = some last) :
    (sh = false → active = DomRef.elem last →
      handleKeyPress true (some items) active { key := "Tab", shiftKey := sh }
        = { preventDefault := true, focused := some first, threw := false }) ∧
    (sh = true → active = DomRef.elem first →
      handleKeyPress true (some items) active { key := "Tab", shiftKey := sh }
        = { preventDefault := true, focused := some last, threw := false }) ∧
    ((sh = false → active ≠ DomRef.elem last) →
     (sh = true → active ≠ DomRef.elem first) →
      handleKeyPress true (some items) active { key := "Tab", shiftKey := sh }
        = { preventDefault := false, focused := none, threw := false }) := by
  have hfi := getItem_zero items first hf
  have hli := getItem_last items last (by omega) hl
  have hlen1 : (items.length == 1) = false := by
    simp only [beq_eq_false_iff_ne]
    omega
  refine ⟨?_, ?_, ?_⟩
  · intro hsh hact
    subst hsh; subst hact
    simp [handleKeyPress, hfi, hli, hlen1]
  · intro hsh hact
    subst hsh; subst hact
    simp [handleKeyPress, hfi, hli, hlen1]
  · intro hnl hnf
    cases sh with
    | false =>
      have h1 : (active == DomRef.elem last) = false := by
        simp only [beq_eq_false_iff_ne]
        exact hnl rfl
      simp [handleKeyPress, hfi, hli, hlen1, h1]
    | true =>
      have h1 : (active == DomRef.elem first) = false := by
        simp only [beq_eq_false_iff_ne]
        exact hnf rfl
      simp [handleKeyPress, hfi, hli, hlen1, h1]

theorem C3_tab_cycling_witness :
    handleKeyPress true (some [1, 2, 3]) (DomRef.elem 3)
        { key := "Tab", shiftKey := false }
      = { preventDefault := true, focused := some 1, threw := false } :=
  (C3_tab_cycling [1, 2, 3] 1 3 (DomRef.elem 3) false (by decide) (by decide)
    (by decide)).1 rfl rfl

/-- C4: for a locked FocusLock whose focusable set has exactly one member,
every Tab keydown suppresses the default action, whether or not shift is
held (and moves no focus and does not throw). -/
theorem C4_single_item (x : Nat) (active : DomRef) (ev : KeyEvent)
    (hk : ev.key = "Tab") :
    handleKeyPress true (some [x]) active ev
      = { preventDefault := true, focused := none, threw := false } := by
  simp [handleKeyPress, hk]

theorem C4_single_item_witness :
    handleKeyPress true (some [5]) DomRef.null { key := "Tab", shiftKey := true }
      = { preventDefault := true, focused := none, threw := false } :=
  C4_single_item 5 DomRef.null { key := "Tab", shiftKey := true } rfl

/-- C5: for a locked FocusLock whose focusable set is empty, every keydown is
a complete no-op: the handler does not throw, does not call preventDefault,
and moves no focus.  `document.activeElement` is an element or `null`, never
`undefined`, which is what makes the comparisons against the `undefined`
first/last items safely false. -/
theorem C5_empty_noop (active : DomRef) (ev : KeyEvent)
    (hact : active ≠ DomRef.undefined) :
    handleKeyPress true (some []) active ev
      = { preventDefault := false, focused := none, threw := false } := by
  have h1 : (active == DomRef.undefined) = false := by
    simp only [beq_eq_false_iff_ne]
    exact hact
  simp [handleKeyPress, getItem, h1]

theorem C5_empty_noop_witness :
    handleKeyPress true (some []) DomRef.null { key := "Tab", shiftKey := false }
      = { preventDefault := false, focused := none, threw := false } :=
  C5_empty_noop DomRef.null { key := "Tab", shiftKey := false } (by decide)

/-- Outcome of the autofocus/return-focus mount effect of FocusLock.tsx lines
52-66: the value written to (or kept in) the `returnFocusNode` ref, and which
element (if any) received a `.focus()` call. -/
structure ActivateResult where
  returnFocusNode : DomRef
  focused : Option Nat
deriving DecidableEq, Repr

/-- Reading `ref?.current` for an optional ref prop: `none` models the prop
not being passed (so `ref?.current` is `undefined`); `some v` models a ref
object whose `current` field is `v` (an element or `null`). -/
def optionalCurrent (r : Option DomRef) : DomRef :=
  match r with
  | some v => v
  | none => DomRef.undefined

/-- Embedding of the body of the autofocus/return-focus effect of
FocusLock.tsx lines 52-62, run at capture activation (mount).

The effect body runs only under `if (autoFocusOnMount)`.  When it runs, it
writes `finalFocusRef?.current ?? document.activeElement` into the
`returnFocusNode` ref, then focuses `initialFocusRef.current` if the ref
object was passed (with `?.`, so an unresolved ref focuses nothing — there is
no fallback), else the item `focusableItems.current?.[0]`.  When
`autoFocusOnMount` is false the effect body is skipped entirely and the ref
keeps its previous value `returnFocusNode0` (initially `null`). -/
def activateCapture (autoFocusOnMount : Bool)
    (finalFocusRef initialFocusRef : Option DomRef) (activeElement : DomRef)
    (focusableItems : Option (List Nat)) (returnFocusNode0 : DomRef) :
    ActivateResult :=
  if autoFocusOnMount then
    let ret := nullishCoalesce (optionalCurrent finalFocusRef) activeElement
    let focused :=
      match initialFocusRef with
      | some cur =>
        match cur with
        | .elem id => some id
        | _ => none
      | none =>
        match focusableItems with
        | some items =>
          match getItem items 0 with
          | .elem id => some id
          | _ => none
        | none => none
    { returnFocusNode := ret, focused := focused }
  else { returnFocusNode := returnFocusNode0, focused := none }

/-- Embedding of the cleanup of the same effect (FocusLock.tsx lines 63-65),
run at release: `if (returnFocusOnClose) returnFocusNode.current?.focus()`.
Returns the element that received focus, if any. -/
def releaseCapture (returnFocusOnClose : Bool) (returnFocusNode : DomRef) :
    Option Nat :=
  if returnFocusOnClose then
    match returnFocusNode with
    | .elem id => some id
    | _ => none
  else none

/-- C1 counterexample: with `autoFocusOnMount = false`, no `finalFocusRef`,
and element 5 focused in the document, activating capture does not record
element 5 as the return-focus target (the `returnFocusNode` ref keeps its
initial `null`), and releasing with `returnFocusOnClose = true` does not
restore focus to element 5 — contradicting the claim that capture and
restoration happen regardless of `autoFocusOnMount`. -/
theorem C1_counterexample :
    (activateCapture false none none (DomRef.elem 5) (some [])
        DomRef.null).returnFocusNode ≠ DomRef.elem 5 ∧
    releaseCapture true
        (activateCapture false none none (DomRef.elem 5) (some [])
          DomRef.null).returnFocusNode ≠ some 5 := by
  decide

/-- C1 amended: only when `autoFocusOnMount` is true at activation is the
return-focus target captured — as the element of `finalFocusRef` when it
resolves, else the currently focused element — and a release with
`returnFocusOnClose = true` then restores focus to the previously focused
element whenever no resolving `finalFocusRef` was given.  When
`autoFocusOnMount` is false the ref keeps its prior value, so release
behaves exactly as if activation had never happened. -/
theorem C1_amended_capture (finalFocusRef initialFocusRef : Option DomRef)
    (active : DomRef) (items : Option (List Nat)) (r0 : DomRef) :
    ((activateCapture true finalFocusRef initialFocusRef active items
        r0).returnFocusNode =
      match finalFocusRef with
      | some (DomRef.elem id) => DomRef.elem id
      | _ => active) ∧
    (∀ e : Nat, active = DomRef.elem e →
      (finalFocusRef = none ∨ finalFocusRef = some DomRef.null) →
      releaseCapture true
          (activateCapture true finalFocusRef initialFocusRef active items
            r0).returnFocusNode = some e) ∧
    (∀ rfc : Bool,
      releaseCapture rfc
          (activateCapture false finalFocusRef initialFocusRef active items
            r0).returnFocusNode = releaseCapture rfc r0) := by
  refine ⟨?_, ?_, ?_⟩
  · cases finalFocusRef with
    | none => simp [activateCapture, optionalCurrent, nullishCoalesce, DomRef.nullish]
    | some v =>
      cases v <;>
        simp [activateCapture, optionalCurrent, nullishCoalesce, DomRef.nullish]
  · intro e hact hfr
    subst hact
    rcases hfr with h | h <;> subst h <;>
      simp [activateCapture, releaseCapture, optionalCurrent, nullishCoalesce,
        DomRef.nullish]
  · intro rfc
    simp [activateCapture]

theorem C1_amended_capture_witness :
    releaseCapture true
        (activateCapture true none none (DomRef.elem 4) (some [9])
          DomRef.null).returnFocusNode = some 4 :=
  (C1_amended_capture none none (DomRef.elem 4) (some [9]) DomRef.null).2.1 4
    rfl (Or.inl rfl)

/-- C6 counterexample: with `autoFocusOnMount = true`, an `initialFocusRef`
that is passed but does not resolve (`current` is `null`), and a non-empty
focusable set `[7]`, activation focuses nothing — contradicting the claim
that focus falls back to element 0 of the focusable set whenever the
initial-focus target is missing or unresolved. -/
theorem C6_counterexample :
    (activateCapture true none (some DomRef.null) (DomRef.elem 1) (some [7])
        DomRef.null).focused ≠ some 7 := by
  decide

/-- C6 amended: with `autoFocusOnMount = true`, the fallback to element 0 of
the focusable set happens only when no `initialFocusRef` object is passed at
all (no-op when the set is empty or not yet computed); when an
`initialFocusRef` is passed, its element is focused if it resolves and
nothing is focused otherwise — there is no fallback to the focusable set. -/
theorem C6_amended_autofocus (finalFocusRef : Option DomRef) (active : DomRef)
    (r0 : DomRef) :
    (∀ items : List Nat,
      (activateCapture true finalFocusRef none active (some items)
          r0).focused = items.head?) ∧
    ((activateCapture true finalFocusRef none active none r0).focused
        = none) ∧
    (∀ itemsOpt : Option (List Nat),
      (activateCapture true finalFocusRef (some DomRef.null) active itemsOpt
          r0).focused = none ∧
      (activateCapture true finalFocusRef (some DomRef.undefined) active
          itemsOpt r0).focused = none ∧
      ∀ e : Nat,
        (activateCapture true finalFocusRef (some (DomRef.elem e)) active
            itemsOpt r0).focused = some e) := by
  refine ⟨?_, ?_, ?_⟩
  · intro items
    cases items with
    | nil => simp [activateCapture, getItem]
    | cons a t =>
      have h0 : getItem (a :: t) 0 = DomRef.elem a := getItem_zero (a :: t) a rfl
      simp [activateCapture, h0]
  · simp [activateCapture]
  · intro itemsOpt
    refine ⟨?_, ?_, ?_⟩ <;> intros <;> simp [activateCapture]

/-- The constant `TRANSITION_DURATION` from Modal.tsx line 24. -/
def TRANSITION_DURATION : Nat := 200

/-- Modelled from the spec: the `useMountTransition` hook (the file
src/packages/react/src/hooks/useMountTransition.hook.ts is not among the
sources; only its call site in Modal.tsx is).  Per spec section 4.4, for a
hook driven by `isOpen` and a duration: while `isOpen` is true the content is
attached; after `isOpen` becomes false the content stays attached for
`duration` milliseconds and then detaches.  `elapsed` is the time in
milliseconds since the last change of `isOpen`. -/
def isContentVisibleAt (duration : Nat) (isOpen : Bool) (elapsed : Nat) :
    Bool :=
  if isOpen then true else decide (elapsed < duration)

/-- Modelled from the spec (same missing hook): the "opened" transition state
is reached `duration` milliseconds after `isOpen` becomes true (immediately
when the duration is 0), and is off while `isOpen` is false. -/
def isOpenedAt (duration : Nat) (isOpen : Bool) (elapsed : Nat) : Bool :=
  if isOpen then decide (duration ≤ elapsed) else false

/-- The duration Modal.tsx lines 62-65 actually passes to the mount
transition hook: the fixed constant `TRANSITION_DURATION`, regardless of the
`transitionDuration` prop (`none` models the prop not being passed). -/
def Modal_mountDuration (transitionDuration : Option Nat) : Nat :=
  TRANSITION_DURATION

/-- The duration Modal.tsx line 124-126 writes into the CSS custom property:
`transitionDuration ?? TRANSITION_DURATION`.  This is the only place the
`transitionDuration` prop is consumed. -/
def Modal_cssDuration (transitionDuration : Option Nat) : Nat :=
  transitionDuration.getD TRANSITION_DURATION

/-- Whether the modal content is attached to the portal, as a function of
the configured `transitionDuration` prop, the `isOpen` intent and the time
elapsed since the last `isOpen` change (composition of Modal.tsx line 62-65
with the mount transition hook). -/
def Modal_isContentVisibleAt (transitionDuration : Option Nat) (isOpen : Bool)
    (elapsed : Nat) : Bool :=
  isContentVisibleAt (Modal_mountDuration transitionDuration) isOpen elapsed

/-- Whether the modal has reached the "opened" transition state, same
composition as `Modal_isContentVisibleAt`. -/
def Modal_isOpenedAt (transitionDuration : Option Nat) (isOpen : Bool)
    (elapsed : Nat) : Bool :=
  isOpenedAt (Modal_mountDuration transitionDuration) isOpen elapsed

/-- C2, failing input: `Modal` calls the mount transition hook with the
constant 200 even when `transitionDuration = 0` is configured, so 100ms
after `isOpen` becomes false the content is still attached, and 100ms after
`isOpen` becomes true the opened state is not yet reached — the claim (and
the prop documentation "Set to 0 to turn off transition") requires immediate
detach and immediately reaching the opened state.  The configured value only
reaches the CSS variable. -/
theorem C2_duration_ignored_by_hook :
    Modal_mountDuration (some 0) = 200 ∧
    Modal_cssDuration (some 0) = 0 ∧
    Modal_isContentVisibleAt (some 0) false 100 = true ∧
    Modal_isOpenedAt (some 0) true 100 = false := by
  decide

/-- Modelled from the spec: `getOverlayElements` (the file
src/packages/react/src/utils/dom.utils.ts is not among the sources).  Per
spec section 4.3 it returns the live ordered sequence of currently attached
overlay root elements, in document order; it is modelled as the identity on
that abstract registry sequence. -/
def getOverlayElements (registry : List Nat) : List Nat := registry

/-- Embedding of the `onEscape` callback from Modal.tsx lines 73-79, invoked
by the keyboard-shortcut hook on every Escape keydown.  `modalRefCurrent` is
`modalRef.current` (this instance's root element, or `null` when the content
is not rendered).  Returns whether `onClose()` is invoked. -/
def onEscape (closeOnEsc : Bool) (registry : List Nat)
    (modalRefCurrent : DomRef) : Bool :=
  if closeOnEsc then
    let modals := getOverlayElements registry
    match getItem modals ((modals.length : Int) - 1) with
    | .elem lastModal => DomRef.elem lastModal == modalRefCurrent
    | _ => false
  else false

/-- C7: with at least two mounted modal instances in the overlay registry, an
Escape keydown makes an instance invoke its close callback exactly when its
root element is the last (topmost) registry entry, and never when
`closeOnEsc` is off. -/
theorem C7_topmost_escape (registry : List Nat) (r : Nat)
    (h2 : 2 ≤ registry.length) :
    (onEscape true registry (DomRef.elem r) = true ↔
      registry.getLast? = some r) ∧
    onEscape false registry (DomRef.elem r) = false := by
  have hne : registry ≠ [] := by
    intro h
    subst h
    simp at h2
  obtain ⟨x, hx⟩ := Option.isSome_iff_exists.mp
    (by rw [List.getLast?_isSome]; exact hne)
  have hli := getItem_last registry x (by omega) hx
  refine ⟨?_, by simp [onEscape]⟩
  rw [hx]
  simp only [onEscape, getOverlayElements, hli, if_true, beq_iff_eq,
    DomRef.elem.injEq, Option.some.injEq]

theorem C7_topmost_escape_witness :
    (onEscape true [1, 2] (DomRef.elem 2) = true ↔
      [1, 2].getLast? = some 2) ∧
    onEscape false [1, 2] (DomRef.elem 2) = false :=
  C7_topmost_escape [1, 2] 2 (by decide)

/-- C10: a Modal instance whose content is not mounted has
`modalRef.current = null` and is absent from the overlay registry; the guard
`lastModal && lastModal === modalRef.current` in `onEscape` then fails for
every registry state and every `closeOnEsc` value, so its close callback is
never invoked on Escape. -/
theorem C10_hidden_instance_ignores_escape (closeOnEsc : Bool)
    (registry : List Nat) :
    onEscape closeOnEsc registry DomRef.null = false := by
  cases closeOnEsc with
  | false => simp [onEscape]
  | true =>
    simp only [onEscape, getOverlayElements, if_true]
    split
    · simp
    · rfl

/-- Embedding of the scroll-lock effect body of Modal.tsx lines 90-98, run on
every change of `lockScroll` or `isContentVisible`: when `lockScroll` is on,
the body no-scroll class is added if this instance is visible and the overlay
registry holds exactly one entry, removed if the registry is empty, and left
unchanged otherwise.  `noScroll` is the current presence of the class on
`document.body`; the result is its presence after the effect. -/
def scrollLockEffect (lockScroll isContentVisible : Bool) (overlayCount : Nat)
    (noScroll : Bool) : Bool :=
  if lockScroll then
    if isContentVisible && (overlayCount == 1) then true
    else if overlayCount == 0 then false
    else noScroll
  else noScroll

/-- C8: the no-scroll marker is a shared boolean across scroll-locking modal
instances: it is set when a visible scroll-locking instance finds the overlay
count at exactly 1, it is never cleared while the overlay count is positive,
and over the two-stacked-modals scenario (first opens, second opens, first
closes, second closes) it goes absent, present, present, present, absent. -/
theorem C8_shared_scroll_lock :
    (∀ m : Bool, scrollLockEffect true true 1 m = true) ∧
    (∀ l v : Bool, ∀ c : Nat, scrollLockEffect l v (c + 1) true = true) ∧
    (scrollLockEffect true true 1 false = true ∧
     scrollLockEffect true true 2 true = true ∧
     scrollLockEffect true false 1 true = true ∧
     scrollLockEffect true false 0 true = false) := by
  refine ⟨by decide, ?_, by decide⟩
  intro l v c
  cases l with
  | false => rfl
  | true =>
    have h0 : ((c + 1) == 0) = false := by simp
    by_cases hv : (v && ((c + 1) == 1)) = true
    · simp [scrollLockEffect, hv]
    · simp only [Bool.not_eq_true] at hv
      simp [scrollLockEffect, hv, h0]

/-- Resource state of one FocusLock instance: whether its mutation observer
is connected (effect at FocusLock.tsx lines 29-49) and whether its window
keydown listener is attached (effect at lines 69-106). -/
structure FocusLockResources where
  observerConnected : Bool
  keydownListenerAttached : Bool
deriving DecidableEq, Repr

/-- Mounting a FocusLock: the first effect registers the mutation observer
(`observer.observe`, line 44-45) and the third adds the window keydown
listener (`window.addEventListener`, line 102). -/
def mountFocusLock : FocusLockResources :=
  { observerConnected := true, keydownListenerAttached := true }

/-- Unmounting a FocusLock runs every effect cleanup: `observer.disconnect()`
(lines 46-48) and `window.removeEventListener("keydown", handleKeyPress)`
(lines 103-105). -/
def unmountFocusLock (r : FocusLockResources) : FocusLockResources :=
  { r with observerConnected := false, keydownListenerAttached := false }

/-- Delivery of a window keydown event with respect to one instance: its
handler runs only while its listener is attached; otherwise the event has no
effect attributable to the instance. -/
def dispatchKeydown (r : FocusLockResources) (isLocked : Bool)
    (items : Option (List Nat)) (active : DomRef) (ev : KeyEvent) :
    TabResult :=
  if r.keydownListenerAttached then handleKeyPress isLocked items active ev
  else { preventDefault := false, focused := none, threw := false }

/-- C9: unmounting a FocusLock instance — from any state, including the
freshly mounted one — leaves its mutation observer disconnected and its
keydown listener detached, and every keydown delivered afterwards (Tab,
Escape, anything) has no effect attributable to the instance. -/
theorem C9_unmount_releases_resources (r : FocusLockResources) :
    (unmountFocusLock r).observerConnected = false ∧
    (unmountFocusLock r).keydownListenerAttached = false ∧
    (unmountFocusLock mountFocusLock).observerConnected = false ∧
    (∀ (isLocked : Bool) (items : Option (List Nat)) (active : DomRef)
        (ev : KeyEvent),
      dispatchKeydown (unmountFocusLock r) isLocked items active ev
        = { preventDefault := false, focused := none, threw := false }) := by
  refine ⟨rfl, rfl, rfl, ?_⟩
  intro isLocked items active ev
  rfl
